import Mathlib

/-!
Verification of the Issue-tracker frontend's real-time notification
subsystem, shallowly embedded from the JavaScript source.

The embedding covers:
* the `WebSocketNotificationService` connection lifecycle
  (`connect` / `disconnect` / `scheduleReconnect` / heartbeat and the
  `onopen` / `onclose` / `onmessage` transport handlers) as an explicit
  state machine that also records the externally visible effects it
  performs (opening a transport, arming a reconnect timer, closing);
* the listener registry of the same class
  (`addEventListener` / `removeEventListener` / `notifyListeners`),
  with callbacks represented by handles compared by identity, as JS
  compares function references;
* `Dashboard.handleKanbanUpdate`, the pure reducer applied to the
  issues list on a `kanban_update` event;
* `NotificationService.markAsRead`, the local-state update performed
  once the acknowledgment request has succeeded.
-/

/-- The browser transport's `readyState` values. -/
inductive ReadyState
  | connecting
  | opened
  | closing
  | closedRS
deriving DecidableEq

/-- The mutable fields of `WebSocketNotificationService` that the
connection lifecycle reads and writes: `websocket` is `none` when the
field is `null` and otherwise carries the transport's `readyState`;
`heartbeatOn` records whether `heartbeatInterval` holds a live interval. -/
structure Svc where
  websocket : Option ReadyState
  reconnectAttempts : Nat
  isConnecting : Bool
  heartbeatOn : Bool
deriving DecidableEq

/-- `this.maxReconnectAttempts` from the constructor. -/
def maxReconnectAttempts : Nat := 5

/-- `this.reconnectDelay` (milliseconds) from the constructor. -/
def reconnectDelay : Nat := 2000

/-- The externally visible effects a lifecycle step can perform. -/
inductive Eff
  | openTransport (token : String)
  | scheduleTimer (delayMs : Nat) (token : String)
  | closeTransport (code : Nat)
  | startHB
  | stopHB
deriving DecidableEq

/-- `startHeartbeat()`: arms the 30-second ping interval. -/
def startHeartbeat (s : Svc) : Svc × List Eff :=
  ({ s with heartbeatOn := true }, [Eff.startHB])

/-- `stopHeartbeat()`: clears the interval when one is armed, otherwise
does nothing. -/
def stopHeartbeat (s : Svc) : Svc × List Eff :=
  if s.heartbeatOn then ({ s with heartbeatOn := false }, [Eff.stopHB])
  else (s, [])

/-- `scheduleReconnect(token)`: increments `reconnectAttempts`, then arms
a one-shot timer for `reconnectDelay * reconnectAttempts` milliseconds
whose callback is `connect(token)`. -/
def scheduleReconnect (s : Svc) (token : String) : Svc × List Eff :=
  let s1 := { s with reconnectAttempts := s.reconnectAttempts + 1 }
  (s1, [Eff.scheduleTimer (reconnectDelay * s1.reconnectAttempts) token])

/-- `connect(token)`: returns immediately when `isConnecting` is set or
the current transport is OPEN; otherwise sets `isConnecting` and
constructs a new transport (whose `readyState` starts at CONNECTING).
The embedding takes the constructor's success path; its catch branch
only resets `isConnecting`. -/
def connect (s : Svc) (token : String) : Svc × List Eff :=
  if s.isConnecting = true ∨ s.websocket = some ReadyState.opened then (s, [])
  else
    ({ s with isConnecting := true, websocket := some ReadyState.connecting },
     [Eff.openTransport token])

/-- The `onopen` handler: by the time it runs the transport is OPEN;
it clears `isConnecting`, resets the attempt counter and starts the
heartbeat. -/
def onopen (s : Svc) : Svc × List Eff :=
  startHeartbeat
    { s with websocket := some ReadyState.opened, isConnecting := false,
             reconnectAttempts := 0 }

/-- The `onclose` handler: the transport is now CLOSED; it clears
`isConnecting`, stops the heartbeat, and when the close code is not the
normal-closure code 1000 and the attempt counter is still below the
maximum, calls `scheduleReconnect(token)`. -/
def onclose (s : Svc) (code : Nat) (token : String) : Svc × List Eff :=
  let s1 := { s with websocket := some ReadyState.closedRS, isConnecting := false }
  let p := stopHeartbeat s1
  if ¬ code = 1000 ∧ p.1.reconnectAttempts < maxReconnectAttempts then
    let q := scheduleReconnect p.1 token
    (q.1, p.2 ++ q.2)
  else
    (p.1, p.2)

/-- `disconnect()`: stops the heartbeat, closes the transport with code
1000 and nulls the field when one exists, and sets `reconnectAttempts`
to the maximum. A timer already armed by `scheduleReconnect` is not
cleared: the source stores no timer id and calls no `clearTimeout`. -/
def disconnect (s : Svc) : Svc × List Eff :=
  let p := stopHeartbeat s
  match p.1.websocket with
  | some _ =>
      ({ p.1 with websocket := none, reconnectAttempts := maxReconnectAttempts },
       p.2 ++ [Eff.closeTransport 1000])
  | none =>
      ({ p.1 with reconnectAttempts := maxReconnectAttempts }, p.2)

/-- A previously armed reconnect timer fires: its callback runs
`connect(token)` on the service's state at that moment. -/
def timerFired (s : Svc) (token : String) : Svc × List Eff :=
  connect s token

/-- The state the constructor builds. -/
def svcInit : Svc :=
  { websocket := none, reconnectAttempts := 0, isConnecting := false,
    heartbeatOn := false }

/-- The reconnect timers among a step's emitted effects. -/
def scheduledTimers : List Eff → List (Nat × String)
  | [] => []
  | Eff.scheduleTimer d t :: rest => (d, t) :: scheduledTimers rest
  | _ :: rest => scheduledTimers rest

/-- Whether a step's emitted effects include opening a new transport. -/
def opensTransport : List Eff → Bool
  | [] => false
  | Eff.openTransport _ :: _ => true
  | _ :: rest => opensTransport rest

/-- C1: on an abnormal close (code ≠ 1000), while the attempt counter is
below the maximum of 5 exactly one retry is scheduled, at delay
2000 ms × the new attempt number, and the counter is incremented;
once the counter has reached the maximum nothing further is scheduled,
no transport is opened, and the state merely records the closed socket. -/
theorem onclose_abnormal_reconnect_spec (s : Svc) (code : Nat) (token : String)
    (h : ¬ code = 1000) :
    (s.reconnectAttempts < maxReconnectAttempts →
       (onclose s code token).1.reconnectAttempts = s.reconnectAttempts + 1 ∧
       scheduledTimers (onclose s code token).2 =
         [(reconnectDelay * (s.reconnectAttempts + 1), token)] ∧
       opensTransport (onclose s code token).2 = false) ∧
    (maxReconnectAttempts ≤ s.reconnectAttempts →
       (onclose s code token).1 =
         { s with websocket := some ReadyState.closedRS, isConnecting := false,
                  heartbeatOn := false } ∧
       scheduledTimers (onclose s code token).2 = [] ∧
       opensTransport (onclose s code token).2 = false) := by
  obtain ⟨ws, ra, ic, hb⟩ := s
  constructor
  · intro hlt
    cases hb <;>
      simp_all [onclose, stopHeartbeat, scheduleReconnect, scheduledTimers,
        opensTransport, maxReconnectAttempts, reconnectDelay]
  · intro hge
    have hnlt : ¬ ra < 5 := by
      simp only [maxReconnectAttempts] at hge; omega
    cases hb <;>
      simp [onclose, stopHeartbeat, scheduledTimers, opensTransport,
        maxReconnectAttempts, hnlt, h]

/-- Witness for C1: a connected client with a fresh counter, closed with
code 1006, schedules exactly one retry at 2000 ms and moves its counter
to 1. -/
theorem onclose_abnormal_reconnect_witness :
    ¬ (1006 : Nat) = 1000 ∧
    ((onclose ⟨some ReadyState.opened, 0, false, true⟩ 1006 "tok").1.reconnectAttempts = 1 ∧
     scheduledTimers (onclose ⟨some ReadyState.opened, 0, false, true⟩ 1006 "tok").2 =
       [(2000, "tok")] ∧
     opensTransport (onclose ⟨some ReadyState.opened, 0, false, true⟩ 1006 "tok").2 = false) := by
  constructor
  · decide
  · have h := onclose_abnormal_reconnect_spec ⟨some ReadyState.opened, 0, false, true⟩
      1006 "tok" (by decide)
    have h2 := h.1 (by decide)
    simpa [reconnectDelay] using h2

/-- C2 (code bug): a client that suffers one abnormal close has a pending
2000 ms reconnect timer; calling `disconnect()` does not clear it, and
when the timer fires its `connect` call finds `websocket` null and
`isConnecting` false, so it opens a fresh transport — the transition to
CONNECTING that the specification says `disconnect()` must prevent. -/
theorem disconnect_ghost_reconnect :
    Eff.scheduleTimer 2000 "tok" ∈
      (onclose (onopen (connect svcInit "tok").1).1 1006 "tok").2 ∧
    (timerFired
        (disconnect (onclose (onopen (connect svcInit "tok").1).1 1006 "tok").1).1
        "tok").2 = [Eff.openTransport "tok"] ∧
    (timerFired
        (disconnect (onclose (onopen (connect svcInit "tok").1).1 1006 "tok").1).1
        "tok").1.isConnecting = true := by
  decide

/-- C8: when `isConnecting` is set or the transport is already OPEN,
`connect` changes nothing and performs no effect. -/
theorem connect_noop_when_active (s : Svc) (token : String)
    (h : s.isConnecting = true ∨ s.websocket = some ReadyState.opened) :
    connect s token = (s, []) := by
  simp [connect, h]

/-- Witness for C8: a connected, non-connecting client; `connect` leaves
it untouched. -/
theorem connect_noop_when_active_witness :
    ((Svc.mk (some ReadyState.opened) 0 false true).isConnecting = true ∨
      (Svc.mk (some ReadyState.opened) 0 false true).websocket =
        some ReadyState.opened) ∧
    connect (Svc.mk (some ReadyState.opened) 0 false true) "tok" =
      (Svc.mk (some ReadyState.opened) 0 false true, []) :=
  ⟨Or.inr rfl,
   connect_noop_when_active (Svc.mk (some ReadyState.opened) 0 false true) "tok"
     (Or.inr rfl)⟩

/-- The `listeners` field: a JS `Map` from event name to the array of
registered callbacks. `κ` is the type of callback handles, compared by
identity as JS compares function references. A `Map` keeps unique keys
in insertion order, so an association list with first-match lookup and
append-at-end insertion models it. -/
abbrev ListenerMap (κ : Type) := List (String × List κ)

/-- `this.listeners.get(event)` guarded by `this.listeners.has(event)`. -/
def getCallbacks {κ : Type} : ListenerMap κ → String → Option (List κ)
  | [], _ => none
  | (e, cbs) :: rest, event =>
      if e = event then some cbs else getCallbacks rest event

/-- The state change of `addEventListener(event, callback)`: create the
entry when the key is missing, then push the callback at the end. -/
def addEventListener {κ : Type} : ListenerMap κ → String → κ → ListenerMap κ
  | [], event, cb => [(event, [cb])]
  | (e, cbs) :: rest, event, cb =>
      if e = event then (e, cbs ++ [cb]) :: rest
      else (e, cbs) :: addEventListener rest event cb

/-- A full call of `addEventListener`: the new listener state paired with
the call's value. The source function's body ends without a `return`
statement, so the call evaluates to `undefined`: no unsubscribe handle
is produced, modelled as `none`. -/
def addEventListenerCall {κ : Type} (ls : ListenerMap κ) (event : String)
    (cb : κ) : ListenerMap κ × Option (ListenerMap κ → ListenerMap κ) :=
  (addEventListener ls event cb, none)

/-- `indexOf` followed by `splice(index, 1)`: removes the first occurrence
of the callback, and does nothing when `indexOf` yields -1. -/
def removeFirst {κ : Type} [DecidableEq κ] (cb : κ) : List κ → List κ
  | [] => []
  | c :: rest => if c = cb then rest else c :: removeFirst cb rest

/-- `removeEventListener(event, callback)`. -/
def removeEventListener {κ : Type} [DecidableEq κ] :
    ListenerMap κ → String → κ → ListenerMap κ
  | [], _, _ => []
  | (e, cbs) :: rest, event, cb =>
      if e = event then (e, removeFirst cb cbs) :: rest
      else (e, cbs) :: removeEventListener rest event cb

/-- One guarded invocation inside `notifyListeners`'s loop:
`try { callback(data) } catch (error) { console.error(...) }`. `run`
gives each handle's behaviour on a payload; a thrown error is caught and
logged, leaving `none` in the outcome trace instead of propagating. -/
def tryCall {κ α ε β : Type} (run : κ → α → Except ε β) (cb : κ) (d : α) :
    Option β :=
  match run cb d with
  | Except.ok b => some b
  | Except.error _ => none

/-- `notifyListeners(event, data)`: `forEach` over the callbacks
registered for the event, each call guarded as in `tryCall`; with no
entry for the event only a log line is emitted. The result is the
ordered trace of the invocations' outcomes. -/
def notifyListeners {κ α ε β : Type} (run : κ → α → Except ε β)
    (ls : ListenerMap κ) (event : String) (d : α) : List (Option β) :=
  match getCallbacks ls event with
  | some cbs => cbs.map fun cb => tryCall run cb d
  | none => []

/-- After `addEventListener`, the callbacks for the event are the previous
ones (empty when the key was missing) with the new callback appended. -/
theorem getCallbacks_addEventListener {κ : Type} (ls : ListenerMap κ)
    (event : String) (cb : κ) :
    getCallbacks (addEventListener ls event cb) event =
      some (((getCallbacks ls event).getD []) ++ [cb]) := by
  induction ls with
  | nil => simp [addEventListener, getCallbacks]
  | cons p rest ih =>
      obtain ⟨e, cbs⟩ := p
      by_cases he : e = event <;>
        simp [addEventListener, getCallbacks, he, ih]

/-- `removeEventListener` maps the event's callback list through
`removeFirst` and touches nothing else about that entry. -/
theorem getCallbacks_removeEventListener {κ : Type} [DecidableEq κ]
    (ls : ListenerMap κ) (event : String) (cb : κ) :
    getCallbacks (removeEventListener ls event cb) event =
      (getCallbacks ls event).map fun l => removeFirst cb l := by
  induction ls with
  | nil => simp [removeEventListener, getCallbacks]
  | cons p rest ih =>
      obtain ⟨e, cbs⟩ := p
      by_cases he : e = event <;>
        simp [removeEventListener, getCallbacks, he, ih]

/-- Removing a callback appended to a list it did not occur in restores
the list. -/
theorem removeFirst_append_self {κ : Type} [DecidableEq κ] (cb : κ)
    (l : List κ) (h : cb ∉ l) : removeFirst cb (l ++ [cb]) = l := by
  induction l with
  | nil => simp [removeFirst]
  | cons c rest ih =>
      rw [List.mem_cons, not_or] at h
      have hne : ¬ c = cb := fun hc => h.1 hc.symm
      simp [removeFirst, hne, ih h.2]

/-- The number of guarded invocations `notifyListeners` performs equals
the number of registered callbacks. -/
theorem notifyListeners_length {κ α ε β : Type} (run : κ → α → Except ε β)
    (ls : ListenerMap κ) (event : String) (d : α) (cbs : List κ)
    (h : getCallbacks ls event = some cbs) :
    (notifyListeners run ls event d).length = cbs.length := by
  simp [notifyListeners, h]

/-- C4: dispatching invokes every callback registered for the event
exactly once, in registration order — the outcome trace has one entry
per callback, and its i-th entry is the guarded call of the i-th
callback. The guard means a throwing callback only leaves `none` in the
trace: every later callback is still invoked, and the dispatch itself
returns a plain value, never an exception. -/
theorem notifyListeners_each_once {κ α ε β : Type} (run : κ → α → Except ε β)
    (ls : ListenerMap κ) (event : String) (d : α) (cbs : List κ)
    (h : getCallbacks ls event = some cbs) :
    (notifyListeners run ls event d).length = cbs.length ∧
    ∀ i : Nat, (notifyListeners run ls event d)[i]? =
      (cbs[i]?).map fun cb => tryCall run cb d := by
  constructor
  · simp [notifyListeners, h]
  · intro i
    simp [notifyListeners, h]

/-- A demo behaviour for callback handles 0 and 1: handle 0 throws,
handle 1 returns its payload plus one. -/
def runDemo : Nat → Nat → Except String Nat := fun cb d =>
  if cb = 0 then Except.error "boom" else Except.ok (d + 1)

/-- Two callbacks registered for `kanban_update`, the first of which
throws. -/
def lsDemo : ListenerMap Nat := [("kanban_update", [0, 1])]

/-- Witness for C4: with the first registered callback throwing, the
dispatch still invokes both callbacks in order, the trace being
`[none, some 6]` at payload 5. -/
theorem notifyListeners_each_once_witness :
    getCallbacks lsDemo "kanban_update" = some [0, 1] ∧
    ((notifyListeners runDemo lsDemo "kanban_update" 5).length = 2 ∧
     ∀ i : Nat, (notifyListeners runDemo lsDemo "kanban_update" 5)[i]? =
       (([0, 1] : List Nat)[i]?).map fun cb => tryCall runDemo cb 5) ∧
    notifyListeners runDemo lsDemo "kanban_update" 5 = [none, some 6] := by
  refine ⟨by decide, ?_, by decide⟩
  exact notifyListeners_each_once runDemo lsDemo "kanban_update" 5 [0, 1]
    (by decide)

/-- C6 counterexample: registering the same callback (handle 7) twice for
`kanban_update` does not leave the listener state equal to the state
after the first registration — the callback is simply pushed again. -/
theorem addEventListener_not_idempotent :
    ¬ addEventListener
        (addEventListener ([] : ListenerMap Nat) "kanban_update" 7)
        "kanban_update" 7 =
      addEventListener ([] : ListenerMap Nat) "kanban_update" 7 := by
  decide

/-- C6 as amended: registration is not idempotent. Registering the same
callback a second time appends a second copy, and one dispatch then
performs one guarded invocation per copy — two for a twice-registered
callback. -/
theorem addEventListener_duplicate_appends {κ : Type} (ls : ListenerMap κ)
    (event : String) (cb : κ) :
    getCallbacks (addEventListener (addEventListener ls event cb) event cb)
        event =
      some (((getCallbacks ls event).getD []) ++ [cb, cb]) ∧
    ∀ (α ε β : Type) (run : κ → α → Except ε β) (d : α),
      (notifyListeners run
          (addEventListener (addEventListener ls event cb) event cb) event
          d).length =
        ((getCallbacks ls event).getD []).length + 2 := by
  have h1 := getCallbacks_addEventListener ls event cb
  have h2 := getCallbacks_addEventListener (addEventListener ls event cb)
    event cb
  rw [h1] at h2
  constructor
  · rw [h2]; simp
  · intro α ε β run d
    rw [notifyListeners_length run _ event d _ h2]
    simp

/-- C7 counterexample: at a concrete registration, the value
`addEventListener` returns carries no unsubscribe handle — the JS call
evaluates to `undefined`. -/
theorem addEventListener_returns_no_handle :
    (addEventListenerCall ([] : ListenerMap Nat) "kanban_update" 7).2 =
      none := by
  rfl

/-- C7 as amended: `addEventListener` appends the callback to the ordered
collection for the event but returns `undefined` — no unsubscribe
handle. Removal is done by calling `removeEventListener(event, callback)`
separately, which removes the first occurrence of that callback; for a
callback that was not already registered this undoes the registration
exactly. -/
theorem addEventListener_append_remove_spec {κ : Type} [DecidableEq κ]
    (ls : ListenerMap κ) (event : String) (cb : κ) :
    getCallbacks (addEventListener ls event cb) event =
      some (((getCallbacks ls event).getD []) ++ [cb]) ∧
    (addEventListenerCall ls event cb).2 = none ∧
    (cb ∉ (getCallbacks ls event).getD [] →
      getCallbacks (removeEventListener (addEventListener ls event cb) event cb)
          event =
        some ((getCallbacks ls event).getD [])) := by
  refine ⟨getCallbacks_addEventListener ls event cb, rfl, fun hmem => ?_⟩
  rw [getCallbacks_removeEventListener, getCallbacks_addEventListener]
  simp [removeFirst_append_self cb _ hmem]

/-- The `data` member of a structured wire message: its `event_type`
discriminator plus the rest of the payload, which the handlers pass
through untouched (represented by an identifier). -/
structure NotifData where
  event_type : String
  payload : Nat
deriving DecidableEq

/-- A structured wire message, `{type, data}` as destructured by
`handleMessage`. -/
structure WireMsg where
  type : String
  data : NotifData
deriving DecidableEq

/-- `handleMessage(message)`, as the ordered list of
`notifyListeners(eventName, data)` dispatches it performs. For a
`notification` message it always dispatches to `notification`, then
switches on `data.event_type`: `issue_assigned` and `kanban_update`
additionally dispatch under those names, every other value only logs
"Unknown notification type". A non-`notification` type only logs
"Unknown message type". The browser popup and sound of
`showAssignmentNotification` perform no listener dispatch during
handling and are not part of the dispatch trace. -/
def handleMessage (m : WireMsg) : List (String × NotifData) :=
  if m.type = "notification" then
    ("notification", m.data) ::
      (if m.data.event_type = "issue_assigned" then
        [("issue_assigned", m.data)]
      else if m.data.event_type = "kanban_update" then
        [("kanban_update", m.data)]
      else [])
  else []

/-- What one run of the `onmessage` handler does: the listener dispatches
it performs, whether an exception escapes it, and whether it closes the
connection. -/
structure MsgOutcome where
  dispatches : List (String × NotifData)
  raised : Bool
  closedConn : Bool
deriving DecidableEq

/-- The `onmessage` handler on a raw frame. `parse` stands for the
ambient `JSON.parse`, `none` when that call throws. The frame equal to
the literal string `pong` returns before parsing; the surrounding
try/catch turns a parse failure into a log line, so the handler itself
never raises, and nothing in it closes the socket. -/
def onmessage (parse : String → Option WireMsg) (raw : String) : MsgOutcome :=
  if raw = "pong" then
    { dispatches := [], raised := false, closedConn := false }
  else
    match parse raw with
    | some m =>
        { dispatches := handleMessage m, raised := false, closedConn := false }
    | none =>
        { dispatches := [], raised := false, closedConn := false }

/-- C3 counterexample: a `notification` message whose `event_type` is
`TEAM_INVITE` — one of the subtypes the claim enumerates — produces only
the generic `notification` dispatch; nothing is dispatched under
`TEAM_INVITE`. -/
theorem handleMessage_team_invite_dropped :
    handleMessage ⟨"notification", ⟨"TEAM_INVITE", 0⟩⟩ =
      [("notification", ⟨"TEAM_INVITE", 0⟩)] ∧
    ¬ ("TEAM_INVITE", NotifData.mk "TEAM_INVITE" 0) ∈
        handleMessage ⟨"notification", ⟨"TEAM_INVITE", 0⟩⟩ := by
  decide

/-- C3 as amended: for a message of type `notification` the client
dispatches generically to `notification` listeners and, exactly when
`data.event_type` is `issue_assigned` or `kanban_update` (the only
recognized subtypes, lowercase), additionally dispatches the same
payload under that subtype name; any other `event_type` — including the
uppercase `ISSUE_ASSIGNED`, `ISSUE_UPDATED`, `ISSUE_STATUS_CHANGED`,
`KANBAN_UPDATE`, `TEAM_INVITE` — is only logged and dropped, and a
message whose `type` is not `notification` is logged and dispatches
nothing. -/
theorem handleMessage_dispatch_spec (m : WireMsg) :
    (¬ m.type = "notification" → handleMessage m = []) ∧
    (m.type = "notification" →
      (m.data.event_type = "issue_assigned" →
         handleMessage m = [("notification", m.data), ("issue_assigned", m.data)]) ∧
      (m.data.event_type = "kanban_update" →
         handleMessage m = [("notification", m.data), ("kanban_update", m.data)]) ∧
      (¬ m.data.event_type = "issue_assigned" →
       ¬ m.data.event_type = "kanban_update" →
         handleMessage m = [("notification", m.data)])) := by
  refine ⟨fun h => ?_, fun h => ⟨fun h1 => ?_, fun h2 => ?_, fun h1 h2 => ?_⟩⟩ <;>
    simp [handleMessage, h, *]

/-- C5: the literal frame `pong` is consumed as a heartbeat
acknowledgment with no dispatch, no exception and no close; and any
other frame on which `JSON.parse` throws is logged and dropped the same
way — no listener callback, nothing raised to the caller, connection
left open. -/
theorem onmessage_pong_and_malformed (parse : String → Option WireMsg)
    (raw : String) :
    onmessage parse "pong" =
      { dispatches := [], raised := false, closedConn := false } ∧
    (¬ raw = "pong" → parse raw = none →
       onmessage parse raw =
         { dispatches := [], raised := false, closedConn := false }) := by
  constructor
  · simp [onmessage]
  · intro h1 h2
    simp [onmessage, h1, h2]

/-- An issue as the board reducer sees it: its `id`, plus all remaining
fields, which the reducer never inspects (represented by an identifier). -/
structure Issue where
  id : Nat
  payload : Nat
deriving DecidableEq

/-- `Dashboard.handleKanbanUpdate`'s `setIssues` updater on `prevIssues`,
given the event's `issue` and `action`: computes
`findIndex(i => i.id === issue.id)`, then for action `deleted` filters
the issue's id out, otherwise replaces in place when the id is present
and prepends the issue when it is not. -/
def handleKanbanUpdate (issues : List Issue) (issue : Issue)
    (action : String) : List Issue :=
  let existingIndex := issues.findIdx? fun i => i.id == issue.id
  if action = "deleted" then
    issues.filter fun i => i.id != issue.id
  else if existingIndex.isSome then
    issues.map fun i => if i.id = issue.id then issue else i
  else
    issue :: issues

/-- `findIdx?` finds an index exactly when some element satisfies the
predicate. -/
theorem findIdx?_isSome_iff {γ : Type} (p : γ → Bool) (l : List γ) :
    (l.findIdx? p).isSome = true ↔ ∃ a ∈ l, p a = true := by
  induction l with
  | nil => simp [List.findIdx?]
  | cons c rest ih =>
      by_cases hc : p c <;> simp [List.findIdx?_cons, hc, ih]

/-- C9: on a board whose issue ids are pairwise distinct, the reducer
deletes every element carrying the event issue's id (keeping the others
in order) for action `deleted`; otherwise it replaces the element with
that id in place when one exists (same length, same order) and prepends
the issue when none does — and in each case the resulting ids remain
pairwise distinct. -/
theorem handleKanbanUpdate_spec (issues : List Issue) (issue : Issue)
    (action : String) (hnd : (issues.map Issue.id).Nodup) :
    (action = "deleted" →
       (∀ i ∈ handleKanbanUpdate issues issue action, ¬ i.id = issue.id) ∧
       (handleKanbanUpdate issues issue action).Sublist issues ∧
       (∀ i ∈ issues, ¬ i.id = issue.id →
          i ∈ handleKanbanUpdate issues issue action)) ∧
    (¬ action = "deleted" →
       ((∃ a ∈ issues, a.id = issue.id) →
          (handleKanbanUpdate issues issue action).length = issues.length ∧
          ∀ n : Nat, (handleKanbanUpdate issues issue action)[n]? =
            (issues[n]?).map fun a => if a.id = issue.id then issue else a) ∧
       ((∀ a ∈ issues, ¬ a.id = issue.id) →
          handleKanbanUpdate issues issue action = issue :: issues)) ∧
    ((handleKanbanUpdate issues issue action).map Issue.id).Nodup := by
  have hiff : (issues.findIdx? fun i => i.id == issue.id).isSome = true ↔
      ∃ a ∈ issues, a.id = issue.id := by
    rw [findIdx?_isSome_iff]
    simp
  refine ⟨fun hdel => ?_, fun hndel => ⟨fun hex => ?_, fun hnone => ?_⟩, ?_⟩
  · refine ⟨?_, ?_, ?_⟩
    · intro i hi
      rw [handleKanbanUpdate] at hi
      simp only [hdel, if_pos] at hi
      have := (List.mem_filter.mp hi).2
      simpa using this
    · rw [handleKanbanUpdate]
      simp only [hdel, if_pos]
      exact List.filter_sublist issues
    · intro i hi hne
      rw [handleKanbanUpdate]
      simp only [hdel, if_pos]
      exact List.mem_filter.mpr ⟨hi, by simpa using hne⟩
  · have hsome : (issues.findIdx? fun i => i.id == issue.id).isSome = true :=
      hiff.mpr hex
    rw [handleKanbanUpdate]
    simp only [hndel, if_neg, if_pos, hsome, ite_true]
    constructor
    · simp
    · intro n
      simp
  · have hnosome : ¬ (issues.findIdx? fun i => i.id == issue.id).isSome = true := by
      rw [hiff]
      push_neg
      exact fun a ha => hnone a ha
    rw [handleKanbanUpdate]
    simp [hndel, hnosome]
  · by_cases hdel : action = "deleted"
    · rw [handleKanbanUpdate]
      simp only [hdel, if_pos]
      exact hnd.sublist ((List.filter_sublist issues).map Issue.id)
    · by_cases hsome : (issues.findIdx? fun i => i.id == issue.id).isSome = true
      · have heq : handleKanbanUpdate issues issue action =
            issues.map fun i => if i.id = issue.id then issue else i := by
          rw [handleKanbanUpdate]
          simp [hdel, hsome]
        rw [heq]
        have hids : ((issues.map fun i =>
            if i.id = issue.id then issue else i).map Issue.id) =
              issues.map Issue.id := by
          rw [List.map_map]
          refine List.map_congr_left fun a _ => ?_
          by_cases ha : a.id = issue.id <;> simp [ha]
        rw [hids]
        exact hnd
      · have heq : handleKanbanUpdate issues issue action = issue :: issues := by
          rw [handleKanbanUpdate]
          simp [hdel, hsome]
        rw [heq, List.map_cons, List.nodup_cons]
        refine ⟨?_, hnd⟩
        intro hmem
        rcases List.mem_map.mp hmem with ⟨a, ha, hid⟩
        exact hsome (hiff.mpr ⟨a, ha, hid⟩)

/-- A two-issue board used by the C9 witness. -/
def issuesDemo : List Issue := [⟨1, 10⟩, ⟨2, 20⟩]

/-- The event issue of the C9 witness: an update to issue 2. -/
def issueDemo : Issue := ⟨2, 99⟩

/-- Witness for C9: on a board with distinct ids 1 and 2, an `updated`
event for issue 2 keeps the length at 2 and the ids pairwise distinct. -/
theorem handleKanbanUpdate_spec_witness :
    (issuesDemo.map Issue.id).Nodup ∧
    (handleKanbanUpdate issuesDemo issueDemo "updated").length =
      issuesDemo.length ∧
    ((handleKanbanUpdate issuesDemo issueDemo "updated").map Issue.id).Nodup := by
  have h := handleKanbanUpdate_spec issuesDemo issueDemo "updated" (by decide)
  exact ⟨by decide, ((h.2.1 (by decide)).1 (by decide)).1, h.2.2⟩

/-- A persisted notification as `markAsRead` sees it: its `id`, the
`is_read` flag it flips, and the remaining fields it spreads through
unchanged (represented by an identifier). -/
structure Notif where
  id : Nat
  is_read : Bool
  payload : Nat
deriving DecidableEq

/-- The local state of `NotificationService` that `markAsRead` updates. -/
structure NotifStore where
  notifications : List Notif
  unreadCount : Nat
deriving DecidableEq

/-- `markAsRead(notificationId)` once the acknowledgment `PUT` has
succeeded: maps the notifications, setting `is_read` on those whose id
matches and spreading the rest through unchanged, then sets
`unreadCount` to `Math.max(0, unreadCount - 1)` — on the non-negative
count, truncated subtraction. (On request failure the catch rethrows
with the local state untouched.) -/
def markAsRead (s : NotifStore) (notificationId : Nat) : NotifStore :=
  { notifications := s.notifications.map fun notif =>
      if notif.id = notificationId then { notif with is_read := true }
      else notif,
    unreadCount := s.unreadCount - 1 }

/-- C10: on acknowledgment success, `markAsRead` flips `is_read` on
exactly the notifications whose id matches, leaves every other
notification and the list's length and order unchanged, and lowers
`unreadCount` by exactly 1, clamped so it never goes below 0. -/
theorem markAsRead_spec (s : NotifStore) (nid : Nat) :
    (markAsRead s nid).notifications.length = s.notifications.length ∧
    (∀ n : Nat, ((markAsRead s nid).notifications)[n]? =
       (s.notifications[n]?).map fun x =>
         if x.id = nid then { x with is_read := true } else x) ∧
    (markAsRead s nid).unreadCount = s.unreadCount - 1 ∧
    (s.unreadCount = 0 → (markAsRead s nid).unreadCount = 0) ∧
    (0 < s.unreadCount → (markAsRead s nid).unreadCount + 1 = s.unreadCount) := by
  refine ⟨?_, fun n => ?_, rfl, fun h0 => ?_, fun hpos => ?_⟩ <;>
    simp [markAsRead] <;> omega
